import Mathlib

/-!
Verification of the FalconMind control plane against its specification.

The Python sources are shallowly embedded: dictionaries become association
lists keyed by strings, `datetime` instants become natural numbers supplied
as explicit parameters, mission progress and geographic quantities become
rationals, and every stateful method becomes a pure function from the old
state (plus the current instant) to the new state and its return value.
-/

namespace FalconMind

/-- Association-list lookup, mirroring Python `dict.get` / `in`. -/
def lookupKV {α : Type} : List (String × α) → String → Option α
  | [], _ => none
  | p :: t, k => if p.1 = k then some p.2 else lookupKV t k

/-- Association-list insert/replace, mirroring Python `d[k] = v`:
replaces the entry in place when the key is present, appends otherwise. -/
def setKV {α : Type} : List (String × α) → String → α → List (String × α)
  | [], k, v => [(k, v)]
  | p :: t, k, v => if p.1 = k then (k, v) :: t else p :: setKV t k v

/-- Association-list removal, mirroring Python `del d[k]`. -/
def eraseKV {α : Type} (l : List (String × α)) (k : String) :
    List (String × α) :=
  l.filter (fun p => p.1 ≠ k)

theorem lookupKV_setKV_self {α : Type} (l : List (String × α)) (k : String)
    (v : α) : lookupKV (setKV l k v) k = some v := by
  induction l with
  | nil => simp [setKV, lookupKV]
  | cons p t ih =>
    by_cases hp : p.1 = k
    · simp [setKV, lookupKV, hp]
    · simp [setKV, lookupKV, hp, ih]

theorem lookupKV_setKV_ne {α : Type} (l : List (String × α)) (k k' : String)
    (v : α) (hne : k' ≠ k) : lookupKV (setKV l k v) k' = lookupKV l k' := by
  induction l with
  | nil =>
    have h : ¬ (k = k') := fun e => hne e.symm
    simp [setKV, lookupKV, h]
  | cons p t ih =>
    by_cases hp : p.1 = k
    · have h : ¬ (k = k') := fun e => hne e.symm
      simp [setKV, lookupKV, hp, h]
    · by_cases hp' : p.1 = k'
      · simp [setKV, lookupKV, hp, hp', hne]
      · simp [setKV, lookupKV, hp, hp', ih]

/-! ## ClusterCenter data model (src/ClusterCenter/backend/main.py) -/

/-- Mission lifecycle states (`MissionState` enum). -/
inductive MissionState where
  | PENDING | RUNNING | PAUSED | SUCCEEDED | FAILED | CANCELLED
deriving DecidableEq, Repr

/-- UAV statuses (`UavStatus` enum). -/
inductive UavStatus where
  | ONLINE | OFFLINE | BUSY | IDLE | ERROR
deriving DecidableEq, Repr

/-- Mission types (`MissionType` enum). -/
inductive MissionType where
  | SINGLE_UAV | MULTI_UAV | CLUSTER
deriving DecidableEq, Repr

/-- `UavInfo` pydantic model; timestamps are abstract instants (`Nat`),
capability and metadata dictionaries are opaque association lists. -/
structure UavInfo where
  uav_id : String
  status : UavStatus
  last_heartbeat : Nat
  current_mission_id : Option String
  capabilities : List (String × String)
  metadata : List (String × String)
deriving DecidableEq, Repr

/-- `MissionInfo` pydantic model; progress is a rational in place of a
Python float, the payload dictionary is an opaque association list. -/
structure MissionInfo where
  mission_id : String
  name : String
  description : String
  mission_type : MissionType
  uav_list : List String
  payload : List (String × String)
  state : MissionState
  progress : ℚ
  priority : Int
  created_at : Nat
  updated_at : Nat
  started_at : Option Nat
  completed_at : Option Nat
deriving DecidableEq, Repr

/-- Combined in-memory state of `ResourceManager` (`uavs` dict) and
`MissionScheduler` (`missions` dict and `pending_queue` list). -/
structure SystemState where
  uavs : List (String × UavInfo)
  missions : List (String × MissionInfo)
  pending_queue : List String
deriving DecidableEq, Repr

/-! ## ResourceManager operations -/

/-- `ResourceManager.register_uav`: builds a brand-new `UavInfo` record
(status ONLINE, no current mission) and stores it under `uav_id`,
whether or not the id was already known. -/
def register_uav (now : Nat) (s : SystemState) (uav_id : String)
    (capabilities metadata : List (String × String)) : SystemState × UavInfo :=
  let uav : UavInfo :=
    { uav_id := uav_id
      status := UavStatus.ONLINE
      last_heartbeat := now
      current_mission_id := none
      capabilities := capabilities
      metadata := metadata }
  ({ s with uavs := setKV s.uavs uav_id uav }, uav)

/-- `ResourceManager.update_uav_heartbeat`: a no-op for unknown ids;
otherwise refreshes `last_heartbeat` to `now` and re-evaluates the
OFFLINE/ONLINE flip against the second clock reading `now2`
(the Python code calls `datetime.utcnow()` again for the comparison). -/
def update_uav_heartbeat (now now2 : Nat) (s : SystemState) (uav_id : String) :
    SystemState :=
  match lookupKV s.uavs uav_id with
  | none => s
  | some u =>
    let u1 := { u with last_heartbeat := now }
    let u2 :=
      if now2 - now > 30 then { u1 with status := UavStatus.OFFLINE }
      else if u1.status = UavStatus.OFFLINE then
        { u1 with status := UavStatus.ONLINE }
      else u1
    { s with uavs := setKV s.uavs uav_id u2 }

/-- `ResourceManager.set_uav_status`: sets the status, and rebinds
`current_mission_id` only when the `mission_id` argument is not `None`
(`if mission_id is not None` in the source), so passing `None` leaves
the previous binding in place. -/
def set_uav_status (s : SystemState) (uav_id : String) (status : UavStatus)
    (mission_id : Option String) : SystemState :=
  match lookupKV s.uavs uav_id with
  | none => s
  | some u =>
    let u1 := { u with status := status }
    let u2 :=
      match mission_id with
      | some m => { u1 with current_mission_id := some m }
      | none => u1
    { s with uavs := setKV s.uavs uav_id u2 }

/-- `ResourceManager.get_available_uavs`: ids of UAVs that are ONLINE and
have no current mission, in dictionary (insertion) order. -/
def get_available_uavs (s : SystemState) : List String :=
  (s.uavs.filter (fun p =>
    p.2.status = UavStatus.ONLINE ∧ p.2.current_mission_id = none)).map
    (fun p => p.1)

/-! ## MissionScheduler operations -/

/-- The UAV-availability block at the top of `dispatch_mission` (the
`检查 UAV 可用性` section): for SINGLE_UAV missions either the listed UAV
must be ONLINE with no current mission, or — with an empty list — the
first available UAV is auto-assigned; other mission types pass through.
Returns the (possibly updated) mission, or `none` on admission failure. -/
def dispatch_admission (s : SystemState) (mission : MissionInfo) :
    Option MissionInfo :=
  if mission.mission_type = MissionType.SINGLE_UAV then
    match mission.uav_list with
    | uav_id :: _ =>
      match lookupKV s.uavs uav_id with
      | none => none
      | some uav =>
        if uav.status ≠ UavStatus.ONLINE ∨ uav.current_mission_id ≠ none
        then none else some mission
    | [] =>
      match get_available_uavs s with
      | [] => none
      | a :: _ => some { mission with uav_list := [a] }
  else some mission

/-- `MissionScheduler.dispatch_mission`: PENDING missions only; SINGLE_UAV
missions check (or auto-assign) an ONLINE idle UAV, then the mission turns
RUNNING, every listed UAV is flipped to BUSY bound to the mission, and the
mission leaves the pending queue. Returns the success flag. -/
def dispatch_mission (now : Nat) (s : SystemState) (mission_id : String) :
    SystemState × Bool :=
  match lookupKV s.missions mission_id with
  | none => (s, false)
  | some mission =>
    if mission.state ≠ MissionState.PENDING then (s, false)
    else
      match dispatch_admission s mission with
      | none => (s, false)
      | some m0 =>
        let m1 := { m0 with
          state := MissionState.RUNNING
          started_at := some now
          updated_at := now }
        let s1 := { s with missions := setKV s.missions mission_id m1 }
        let s2 := m1.uav_list.foldl
          (fun acc uav_id =>
            set_uav_status acc uav_id UavStatus.BUSY (some mission_id)) s1
        (({ s2 with pending_queue :=
            s2.pending_queue.filter (fun x => ¬ (x == mission_id)) }), true)

/-- `MissionScheduler.pause_mission`: RUNNING → PAUSED, otherwise fail. -/
def pause_mission (now : Nat) (s : SystemState) (mission_id : String) :
    SystemState × Bool :=
  match lookupKV s.missions mission_id with
  | none => (s, false)
  | some mission =>
    if mission.state ≠ MissionState.RUNNING then (s, false)
    else
      let m1 := { mission with state := MissionState.PAUSED, updated_at := now }
      ({ s with missions := setKV s.missions mission_id m1 }, true)

/-- `MissionScheduler.resume_mission`: PAUSED → RUNNING, otherwise fail. -/
def resume_mission (now : Nat) (s : SystemState) (mission_id : String) :
    SystemState × Bool :=
  match lookupKV s.missions mission_id with
  | none => (s, false)
  | some mission =>
    if mission.state ≠ MissionState.PAUSED then (s, false)
    else
      let m1 := { mission with state := MissionState.RUNNING, updated_at := now }
      ({ s with missions := setKV s.missions mission_id m1 }, true)

/-- `MissionScheduler.cancel_mission`: fails in terminal states; otherwise
the mission turns CANCELLED, its UAVs are set IDLE (with a `None` mission
argument), and it leaves the pending queue. -/
def cancel_mission (now : Nat) (s : SystemState) (mission_id : String) :
    SystemState × Bool :=
  match lookupKV s.missions mission_id with
  | none => (s, false)
  | some mission =>
    if mission.state = MissionState.SUCCEEDED ∨
        mission.state = MissionState.FAILED ∨
        mission.state = MissionState.CANCELLED then (s, false)
    else
      let m1 := { mission with
        state := MissionState.CANCELLED
        completed_at := some now
        updated_at := now }
      let s1 := { s with missions := setKV s.missions mission_id m1 }
      let s2 := m1.uav_list.foldl
        (fun acc uav_id => set_uav_status acc uav_id UavStatus.IDLE none) s1
      (({ s2 with pending_queue :=
          s2.pending_queue.filter (fun x => ¬ (x == mission_id)) }), true)

/-- `MissionScheduler.update_mission_progress`: for a known mission stores
`max(0.0, min(1.0, progress))` unconditionally — no check against the
previous value and no state precondition. -/
def update_mission_progress (now : Nat) (s : SystemState) (mission_id : String)
    (progress : ℚ) : SystemState :=
  match lookupKV s.missions mission_id with
  | none => s
  | some mission =>
    let m1 := { mission with
      progress := max 0 (min 1 progress)
      updated_at := now }
    { s with missions := setKV s.missions mission_id m1 }

/-- `MissionScheduler.complete_mission`: for a known mission — in any state,
there is no precondition — sets SUCCEEDED (progress 1.0) or FAILED
(progress kept), then sets every listed UAV to IDLE passing `None` as
the mission argument. -/
def complete_mission (now : Nat) (s : SystemState) (mission_id : String)
    (success : Bool) : SystemState :=
  match lookupKV s.missions mission_id with
  | none => s
  | some mission =>
    let m1 := { mission with
      state := if success then MissionState.SUCCEEDED else MissionState.FAILED
      progress := if success then 1 else mission.progress
      completed_at := some now
      updated_at := now }
    let s1 := { s with missions := setKV s.missions mission_id m1 }
    m1.uav_list.foldl
      (fun acc uav_id => set_uav_status acc uav_id UavStatus.IDLE none) s1

/-- Result of the DELETE /missions endpoint. -/
inductive DeleteResult where
  | deleted | notFound
deriving DecidableEq, Repr

/-- The `delete_mission` HTTP handler: 404 when unknown; a RUNNING or
PAUSED mission is first cancelled; then the mission is removed from the
mission table and the pending queue. No terminal-state requirement. -/
def delete_mission (now : Nat) (s : SystemState) (mission_id : String) :
    SystemState × DeleteResult :=
  match lookupKV s.missions mission_id with
  | none => (s, DeleteResult.notFound)
  | some mission =>
    let s1 :=
      if mission.state = MissionState.RUNNING ∨
          mission.state = MissionState.PAUSED then
        (cancel_mission now s mission_id).1
      else s
    ({ s1 with
        missions := eraseKV s1.missions mission_id
        pending_queue := s1.pending_queue.filter (fun x => ¬ (x == mission_id)) },
      DeleteResult.deleted)

/-! ## Raft election (src/ClusterCenter/backend/raft_election.py) -/

/-- Raft node roles (`NodeState` enum). -/
inductive NodeState where
  | FOLLOWER | CANDIDATE | LEADER
deriving DecidableEq, Repr

/-- A replicated log entry (`LogEntry` dataclass); the command payload is
an opaque association list. -/
structure LogEntry where
  term : Nat
  index : Nat
  command : List (String × String)
  timestamp : Nat
deriving DecidableEq, Repr

/-- The persistent and volatile fields of `RaftNode` that
`receive_vote_request` reads or writes. -/
structure RaftNode where
  node_id : String
  current_term : Nat
  voted_for : Option String
  state : NodeState
  log : List LogEntry
deriving DecidableEq, Repr

/-- `RaftNode.receive_vote_request`: a higher candidate term first updates
`current_term` and clears the vote; the request is then refused when the
term is stale or the node already voted for someone else, and granted
otherwise. The source skips the log up-to-dateness comparison — its own
comment reads `简化：总是投票` (simplified: always vote) and notes that
`last_log_index` and `last_log_term` should actually be compared, so the
two log arguments and the local log never influence the outcome. -/
def receive_vote_request (s : RaftNode) (candidate_id : String)
    (term last_log_index last_log_term : Nat) : Bool × RaftNode :=
  let s1 :=
    if term > s.current_term then
      { s with current_term := term, voted_for := none,
               state := NodeState.FOLLOWER }
    else s
  if term < s1.current_term then (false, s1)
  else
    match s1.voted_for with
    | some v =>
      if v ≠ candidate_id then (false, s1)
      else (true, { s1 with voted_for := some candidate_id })
    | none => (true, { s1 with voted_for := some candidate_id })

/-! ## Data synchronizer (src/ClusterCenter/backend/data_sync.py) -/

/-- `SyncOperation` dataclass; the entity payload is opaque. -/
structure SyncOperation where
  operation_type : String
  entity_type : String
  entity_id : String
  data : List (String × String)
  timestamp : Nat
  version : Nat
  node_id : String
deriving DecidableEq, Repr

/-- `self.entity_versions.get(entity_id, 0)`. -/
def getVersion (versions : List (String × Nat)) (entity_id : String) : Nat :=
  (lookupKV versions entity_id).getD 0

/-- `DataSynchronizer._resolve_conflict`: rejects (returns false) exactly
when the locally stored version is strictly greater than the incoming
version; equal versions — also from a different origin node — and larger
incoming versions are accepted. -/
def resolve_conflict (versions : List (String × Nat)) (op : SyncOperation) :
    Bool :=
  if getVersion versions op.entity_id > op.version then false else true

/-- `DataSynchronizer.apply_sync_operation`, restricted to its version
bookkeeping: when `resolve_conflict` rejects, nothing changes and the
operation is skipped; otherwise the entity table is updated (the
per-entity-kind `_apply_*_sync` mutation is not modelled here) and the
stored version becomes `op.version`. Returns whether it applied. -/
def apply_sync_operation (versions : List (String × Nat))
    (op : SyncOperation) : Bool × List (String × Nat) :=
  if resolve_conflict versions op = false then (false, versions)
  else (true, setKV versions op.entity_id op.version)

/-! ## Multi-UAV coordinator (src/ClusterCenter/backend/multi_uav_coordinator.py) -/

/-- Geographic point (`Point` dataclass of conflict_resolver.py and the
position dictionaries of the coordinator), with rational coordinates. -/
structure Position where
  lat : ℚ
  lon : ℚ
  alt : ℚ
deriving DecidableEq, Repr

/-- Coordination event kinds (`CoordinationEvent` enum). -/
inductive CoordinationEvent where
  | MISSION_STARTED | MISSION_PAUSED | MISSION_RESUMED | MISSION_COMPLETED
  | MISSION_FAILED | AREA_COVERED | TARGET_FOUND | LOW_BATTERY
  | COLLISION_RISK | PATH_CONFLICT
deriving DecidableEq, Repr

/-- `UavMissionState` dataclass (coordinator view). -/
structure UavMissionState where
  uav_id : String
  mission_id : String
  cluster_mission_id : String
  assigned_area : List (String × String)
  current_position : Position
  current_waypoint_index : Nat
  progress : ℚ
  status : String
  battery_percent : ℚ
  last_update : Option Nat
deriving DecidableEq, Repr

/-- The conflict dictionary appended by `_check_conflicts`; its keys are
`type`, `uav_id`, `other_uav_id`, `distance`, `min_separation` (`ctype`
stands for the reserved key name `type`). It carries no severity. -/
structure ConflictRecord where
  ctype : String
  uav_id : String
  other_uav_id : String
  distance : ℚ
  min_separation : ℚ
deriving DecidableEq, Repr

/-- `CoordinationMessage` dataclass, with the data field specialised to
the conflict dictionary produced by `_check_conflicts`. -/
structure CoordinationMessage where
  event_type : CoordinationEvent
  cluster_mission_id : String
  uav_id : String
  timestamp : Nat
  data : Option ConflictRecord
deriving DecidableEq, Repr

/-- `MultiUavCoordinator._check_conflicts`: for a tracked RUNNING UAV,
walks every other tracked UAV, keeps those that are RUNNING and in the
same cluster mission and closer than `min_separation` (default 50 m),
and emits one COLLISION_RISK coordination message per such neighbour.
The Haversine evaluation (`_calculate_distance`, floating-point
trigonometry in the source) is abstracted into the `dist` parameter. -/
def check_conflicts (dist : Position → Position → ℚ) (min_separation : ℚ)
    (now : Nat) (uav_states : List (String × UavMissionState))
    (uav_id : String) : List CoordinationMessage :=
  match lookupKV uav_states uav_id with
  | none => []
  | some current =>
    if current.status ≠ "RUNNING" then []
    else
      let conflicts := uav_states.filterMap (fun p =>
        if p.1 = uav_id then none
        else if p.2.status ≠ "RUNNING" then none
        else if p.2.cluster_mission_id ≠ current.cluster_mission_id then none
        else
          let d := dist current.current_position p.2.current_position
          if d < min_separation then
            some { ctype := "COLLISION_RISK", uav_id := uav_id,
                   other_uav_id := p.1, distance := d,
                   min_separation := min_separation }
          else none)
      conflicts.map (fun c =>
        { event_type := CoordinationEvent.COLLISION_RISK
          cluster_mission_id := current.cluster_mission_id
          uav_id := uav_id
          timestamp := now
          data := some c })

/-! ## Cooperative path optimizer (src/ClusterCenter/backend/conflict_resolver.py) -/

/-- `Waypoint` dataclass; the timestamp is in seconds as a rational. -/
structure Waypoint where
  position : Position
  timestamp : ℚ
  speed : ℚ
deriving DecidableEq, Repr

/-- `Path` dataclass. -/
structure Path where
  waypoints : List Waypoint
  uav_id : String
deriving DecidableEq, Repr

/-- `Conflict` dataclass. -/
structure Conflict where
  uav_id_1 : String
  uav_id_2 : String
  conflict_type : String
  conflict_point : Position
  conflict_time : ℚ
  severity : ℚ
deriving DecidableEq, Repr

/-- The severity computed inside `_detect_conflicts`:
`1.0 - min(time_diff / 10.0, 1.0)` with
`time_diff = abs((wp1.timestamp - wp2.timestamp).total_seconds())`. -/
def conflict_severity (t1 t2 : ℚ) : ℚ :=
  1 - min (|t1 - t2| / 10) 1

/-- The body of the `enumerate(all_paths)` loop of
`CooperativePathOptimizer._detect_conflicts`, carrying the running
index `i` explicitly. -/
def detect_conflicts_from (dist : Position → Position → ℚ)
    (min_separation : ℚ) (path : Path) (path_index : Nat) :
    List Path → Nat → List Conflict
  | [], _ => []
  | other :: rest, i =>
    (if i = path_index then []
     else
      path.waypoints.flatMap (fun wp1 =>
        other.waypoints.filterMap (fun wp2 =>
          let d := dist wp1.position wp2.position
          if d < min_separation then
            some { uav_id_1 := path.uav_id
                   uav_id_2 := other.uav_id
                   conflict_type := "PATH"
                   conflict_point := wp1.position
                   conflict_time := wp1.timestamp
                   severity := conflict_severity wp1.timestamp wp2.timestamp }
          else none)))
      ++ detect_conflicts_from dist min_separation path path_index rest (i + 1)

/-- `CooperativePathOptimizer._detect_conflicts`: for every other path
(every index except `path_index`) and every pair of waypoints closer
than `min_separation_distance` (default 50 m, from `PathReplanner`),
records a PATH conflict at the first waypoint with the time-difference
severity. The Haversine `calculate_distance` is abstracted into the
`dist` parameter. -/
def detect_conflicts (dist : Position → Position → ℚ) (min_separation : ℚ)
    (path : Path) (all_paths : List Path) (path_index : Nat) : List Conflict :=
  detect_conflicts_from dist min_separation path path_index all_paths 0

/-! ## Viewer broadcast manager (src/FalconMindViewer/backend/services/websocket_manager.py) -/

/-- `ConnectionManager` of the viewer backend: subscriber connections are
abstract ids, the broadcast queue is `none` before `start()` creates it
(mirroring `self.message_queue = None`), and `μ` is the message type. -/
structure ConnectionManager (μ : Type) where
  active_connections : List Nat
  max_connections : Nat
  max_queue_size : Nat
  message_queue : Option (List μ)
  running : Bool

/-- `ConnectionManager.queue_broadcast`: drops the message when the
manager is not running or the queue was never created; drops the message
(logging only a warning — `asyncio.QueueFull` is swallowed) when the
queue already holds `max_queue_size` messages; otherwise appends it. No
field of the manager records a drop. -/
def queue_broadcast {μ : Type} (cm : ConnectionManager μ) (message : μ) :
    ConnectionManager μ :=
  match cm.message_queue, cm.running with
  | none, _ => cm
  | some _, false => cm
  | some q, true =>
    if q.length ≥ cm.max_queue_size then cm
    else { cm with message_queue := some (q ++ [message]) }

/-! ## Spec-side state machine -/

/-- From the wording of spec section 4.2 (for comparison with the
scheduler code): the permitted directed edges of the mission state
machine. -/
def specAllowedEdge : MissionState → MissionState → Bool
  | MissionState.PENDING, MissionState.RUNNING => true
  | MissionState.PENDING, MissionState.CANCELLED => true
  | MissionState.PENDING, MissionState.FAILED => true
  | MissionState.RUNNING, MissionState.PAUSED => true
  | MissionState.RUNNING, MissionState.SUCCEEDED => true
  | MissionState.RUNNING, MissionState.FAILED => true
  | MissionState.RUNNING, MissionState.CANCELLED => true
  | MissionState.PAUSED, MissionState.RUNNING => true
  | MissionState.PAUSED, MissionState.CANCELLED => true
  | _, _ => false

/-- The `/uavs/.../heartbeat` endpoint: body of `uav_heartbeat` in
main.py — always answers the literal ok status, whatever the id. -/
def uav_heartbeat (now now2 : Nat) (s : SystemState) (uav_id : String) :
    SystemState × String :=
  (update_uav_heartbeat now now2 s uav_id, "ok")

/-! ## Auxiliary lemmas -/

theorem lookupKV_eraseKV_self {α : Type} (l : List (String × α)) (k : String) :
    lookupKV (eraseKV l k) k = none := by
  induction l with
  | nil => rfl
  | cons p t ih =>
    by_cases hp : p.1 = k
    · simp [eraseKV, lookupKV, hp] at ih ⊢; exact ih
    · simp [eraseKV, lookupKV, hp] at ih ⊢; exact ih

theorem set_uav_status_missions (s : SystemState) (uid : String)
    (st : UavStatus) (mid : Option String) :
    (set_uav_status s uid st mid).missions = s.missions := by
  rcases h : lookupKV s.uavs uid with _ | u <;> simp [set_uav_status, h]

theorem foldl_set_status_missions (l : List String) (s : SystemState)
    (st : UavStatus) (mid : Option String) :
    (l.foldl (fun acc u => set_uav_status acc u st mid) s).missions
      = s.missions := by
  induction l generalizing s with
  | nil => rfl
  | cons a t ih =>
    simp only [List.foldl]
    rw [ih, set_uav_status_missions]

theorem clamp_comm (p : ℚ) : max 0 (min 1 p) = min 1 (max 0 p) := by
  rcases le_total p 0 with h | h
  · rw [min_eq_right (h.trans zero_le_one), max_eq_left h,
      min_eq_right zero_le_one]
  · rcases le_total p 1 with h1 | h1
    · rw [min_eq_right h1, max_eq_right h, min_eq_right h1]
    · rw [min_eq_left h1, max_eq_right (zero_le_one.trans h1), min_eq_left h1,
        max_eq_right (zero_le_one (α := ℚ))]

/-- Single apply never lowers any stored version. -/
theorem getVersion_apply_mono (versions : List (String × Nat))
    (op : SyncOperation) (e : String) :
    getVersion versions e ≤ getVersion (apply_sync_operation versions op).2 e := by
  by_cases h : getVersion versions op.entity_id > op.version
  · have hsame : (apply_sync_operation versions op).2 = versions := by
      simp [apply_sync_operation, resolve_conflict, h]
    rw [hsame]
  · have happ : (apply_sync_operation versions op).2
        = setKV versions op.entity_id op.version := by
      simp [apply_sync_operation, resolve_conflict, h]
    rw [happ]
    by_cases he : e = op.entity_id
    · subst he
      have hle : getVersion versions op.entity_id ≤ op.version := Nat.not_lt.mp h
      simpa [getVersion, lookupKV_setKV_self] using hle
    · simp [getVersion, lookupKV_setKV_ne _ _ _ _ he]

/-- Folded applies never lower any stored version. -/
theorem getVersion_foldl_mono (ops : List SyncOperation)
    (versions : List (String × Nat)) (e : String) :
    getVersion versions e ≤
      getVersion (ops.foldl (fun vs o => (apply_sync_operation vs o).2) versions) e := by
  induction ops generalizing versions with
  | nil => exact le_refl _
  | cons o t ih =>
    simp only [List.foldl]
    exact (getVersion_apply_mono versions o e).trans (ih _)

/-! ## Concrete fixtures -/

/-- A mission record with the fields `create_mission` defaults. -/
def mkMission (mid : String) (ty : MissionType) (uavs : List String)
    (st : MissionState) (prog : ℚ) : MissionInfo :=
  { mission_id := mid, name := mid, description := "", mission_type := ty,
    uav_list := uavs, payload := [], state := st, progress := prog,
    priority := 0, created_at := 0, updated_at := 0, started_at := none,
    completed_at := none }

/-- A UAV record with empty capability and metadata dictionaries. -/
def mkUav (uid : String) (st : UavStatus) (mid : Option String) : UavInfo :=
  { uav_id := uid, status := st, last_heartbeat := 0,
    current_mission_id := mid, capabilities := [], metadata := [] }

/-! ## Claim C3 -/

def c3_node : RaftNode :=
  { node_id := "n1", current_term := 1, voted_for := none,
    state := NodeState.FOLLOWER,
    log := [{ term := 5, index := 1, command := [], timestamp := 0 }] }

/-- Claim C3 (code bug, evaluated at the failing input): a follower at
term 1 whose last log entry has term 5 still grants its vote to a
candidate whose last log term is 0 — the vote handler ignores the
candidate log arguments entirely, although the spec (and the handler's
own comment about comparing `last_log_index` and `last_log_term`)
requires the candidate log to be at least as up-to-date. -/
theorem receive_vote_request_ignores_log :
    (receive_vote_request c3_node "cand" 1 0 0).1 = true ∧
    c3_node.log.getLast?.map LogEntry.term = some 5 ∧
    (0 : Nat) < 5 := by
  exact ⟨rfl, rfl, by decide⟩

/-! ## Claim C4 -/

/-- Claim C4: `apply_sync_operation` rejects exactly when the stored
version for `op.entity_id` strictly exceeds `op.version`; otherwise it
applies and the stored version becomes `op.version`; a single apply, and
any folded sequence of applies, never lowers any stored version. -/
theorem apply_sync_version_semantics (versions : List (String × Nat))
    (op : SyncOperation) (ops : List SyncOperation) (e : String) :
    ((apply_sync_operation versions op).1 = false ↔
      getVersion versions op.entity_id > op.version) ∧
    getVersion (apply_sync_operation versions op).2 op.entity_id
      = (if getVersion versions op.entity_id > op.version
         then getVersion versions op.entity_id else op.version) ∧
    getVersion versions e ≤ getVersion (apply_sync_operation versions op).2 e ∧
    getVersion versions e ≤
      getVersion (ops.foldl (fun vs o => (apply_sync_operation vs o).2) versions) e := by
  refine ⟨?_, ?_, getVersion_apply_mono versions op e,
    getVersion_foldl_mono ops versions e⟩
  · by_cases h : getVersion versions op.entity_id > op.version <;>
      simp [apply_sync_operation, resolve_conflict, h]
  · by_cases h : getVersion versions op.entity_id > op.version
    · simp [apply_sync_operation, resolve_conflict, h]
    · have h2 : ¬ op.version < (lookupKV versions op.entity_id).getD 0 := h
      simp [apply_sync_operation, resolve_conflict, getVersion, h2,
        lookupKV_setKV_self]

/-! ## Claim C5 -/

def c5_state : SystemState :=
  { uavs := []
    missions := [("m5", mkMission "m5" MissionType.SINGLE_UAV ["u5"]
      MissionState.RUNNING (1/2))]
    pending_queue := [] }

/-- Claim C5 (counterexample): a RUNNING mission at progress 0.5 accepts
a progress update of 0.2 and its stored progress drops to 0.2 — the
scheduler never compares against the previous value, so progress is not
non-decreasing while the mission is RUNNING. -/
theorem progress_decreases_while_running :
    (lookupKV c5_state.missions "m5").map MissionInfo.state
      = some MissionState.RUNNING ∧
    (lookupKV c5_state.missions "m5").map MissionInfo.progress
      = some (1/2) ∧
    (lookupKV (update_mission_progress 1 c5_state "m5" (1/5)).missions
      "m5").map MissionInfo.progress = some (1/5) ∧
    ((1 : ℚ)/5 < 1/2) := by
  refine ⟨rfl, ?_, ?_, by norm_num⟩
  · norm_num [c5_state, mkMission, lookupKV]
  · norm_num [c5_state, mkMission, lookupKV, update_mission_progress, setKV,
      max_def, min_def]

/-- Claim C5 (amended): `update_mission_progress` on an existing mission
stores the clamp of the requested value unconditionally — for an
in-range request the stored progress becomes exactly the request,
whatever the previous progress and whatever the mission state, so a
lower request lowers the stored progress. -/
theorem update_progress_overwrites (now : Nat) (s : SystemState)
    (mid : String) (p : ℚ) (hm : (lookupKV s.missions mid).isSome)
    (h0 : 0 ≤ p) (h1 : p ≤ 1) :
    (lookupKV (update_mission_progress now s mid p).missions mid).map
      MissionInfo.progress = some p := by
  rcases ho : lookupKV s.missions mid with _ | m
  · rw [ho] at hm; simp at hm
  · have hc : max 0 (min 1 p) = p := by rw [min_eq_right h1, max_eq_right h0]
    simp [update_mission_progress, ho, lookupKV_setKV_self, hc]

/-- Witness for the amended C5 theorem at a concrete input. -/
theorem update_progress_overwrites_witness :
    (lookupKV (update_mission_progress 1 c5_state "m5" (1/5)).missions
      "m5").map MissionInfo.progress = some (1/5) :=
  update_progress_overwrites 1 c5_state "m5" (1/5) (by decide)
    (by norm_num) (by norm_num)

/-! ## Claim C6 -/

def c6_state : SystemState :=
  { uavs := [("u6", mkUav "u6" UavStatus.BUSY (some "m6"))]
    missions := []
    pending_queue := [] }

/-- Claim C6 (counterexample): a registered UAV bound to mission m6 loses
that binding when registered again — `register_uav` stores a brand-new
record whose `current_mission_id` is `None`. -/
theorem register_loses_binding :
    (lookupKV c6_state.uavs "u6").map UavInfo.current_mission_id
      = some (some "m6") ∧
    (lookupKV (register_uav 1 c6_state "u6" [] []).1.uavs "u6").map
      UavInfo.current_mission_id = some none := by
  exact ⟨rfl, rfl⟩

/-- Claim C6 (amended): re-registering a UAV resets its record — after
`register_uav` the stored record has status ONLINE and no current
mission (any previous binding is lost); records of other UAV ids are
untouched. -/
theorem register_resets_record (now : Nat) (s : SystemState)
    (uid uid2 : String) (caps meta : List (String × String))
    (hne : uid2 ≠ uid) :
    (lookupKV (register_uav now s uid caps meta).1.uavs uid).map
      UavInfo.current_mission_id = some none ∧
    (lookupKV (register_uav now s uid caps meta).1.uavs uid).map
      UavInfo.status = some UavStatus.ONLINE ∧
    lookupKV (register_uav now s uid caps meta).1.uavs uid2
      = lookupKV s.uavs uid2 := by
  refine ⟨?_, ?_, ?_⟩ <;>
    simp [register_uav, lookupKV_setKV_self, lookupKV_setKV_ne _ _ _ _ hne]

/-- Witness for the amended C6 theorem at a concrete input. -/
theorem register_resets_record_witness :
    (lookupKV (register_uav 1 c6_state "u6" [] []).1.uavs "u6").map
      UavInfo.current_mission_id = some none ∧
    (lookupKV (register_uav 1 c6_state "u6" [] []).1.uavs "u6").map
      UavInfo.status = some UavStatus.ONLINE ∧
    lookupKV (register_uav 1 c6_state "u6" [] []).1.uavs "ux"
      = lookupKV c6_state.uavs "ux" :=
  register_resets_record 1 c6_state "u6" "ux" [] [] (by decide)

/-! ## Claim C8 -/

def c8_manager : ConnectionManager Nat :=
  { active_connections := [1, 2], max_connections := 100, max_queue_size := 2,
    message_queue := some [10, 20], running := true }

/-- Claim C8 (counterexample): enqueueing onto the already-full broadcast
queue returns a manager state identical bit for bit to the previous one
— the class holds no counter field at all, so no drop counter is
incremented; the only record of the drop in the source is a log
warning. The queued messages and the subscriber set are unchanged. -/
theorem queue_broadcast_full_no_counter :
    queue_broadcast c8_manager 30 = c8_manager ∧
    c8_manager.message_queue = some [10, 20] ∧
    c8_manager.active_connections = [1, 2] := by
  exact ⟨rfl, rfl, rfl⟩

/-- Claim C8 (amended): when the queue already holds `max_queue_size`
messages, `queue_broadcast` drops the new message and leaves the whole
manager state unchanged — queued messages kept, no subscriber
disconnected, and nothing (no counter) records the drop beyond a log
warning. -/
theorem queue_broadcast_full_drops {μ : Type} (cm : ConnectionManager μ)
    (message : μ) (q : List μ) (hq : cm.message_queue = some q)
    (hr : cm.running = true) (hf : q.length ≥ cm.max_queue_size) :
    queue_broadcast cm message = cm := by
  simp [queue_broadcast, hq, hr, hf]

/-- Witness for the amended C8 theorem at a concrete input. -/
theorem queue_broadcast_full_drops_witness :
    queue_broadcast c8_manager 30 = c8_manager :=
  queue_broadcast_full_drops c8_manager 30 [10, 20] rfl rfl (by decide)

/-! ## Claim C9 -/

def c9_state : SystemState :=
  { uavs := []
    missions := [("m9", mkMission "m9" MissionType.SINGLE_UAV []
      MissionState.RUNNING 0)]
    pending_queue := [] }

/-- Claim C9: for an existing mission and any rational input,
`update_mission_progress` always stores `min(1, max(0, p))` — the update
function has no validation path at all, so out-of-range input is
silently clamped into the unit interval rather than rejected. -/
theorem update_progress_clamps (now : Nat) (s : SystemState) (mid : String)
    (p : ℚ) (hm : (lookupKV s.missions mid).isSome) :
    (lookupKV (update_mission_progress now s mid p).missions mid).map
      MissionInfo.progress = some (min 1 (max 0 p)) := by
  rcases ho : lookupKV s.missions mid with _ | m
  · rw [ho] at hm; simp at hm
  · simp [update_mission_progress, ho, lookupKV_setKV_self, clamp_comm]

/-- Witness for the C9 theorem at a concrete out-of-range input. -/
theorem update_progress_clamps_witness :
    (lookupKV (update_mission_progress 1 c9_state "m9" 7).missions
      "m9").map MissionInfo.progress = some (min 1 (max 0 (7 : ℚ))) :=
  update_progress_clamps 1 c9_state "m9" 7 (by decide)

/-! ## Claim C10 -/

/-- Claim C10: a heartbeat for an unregistered UAV id is a complete
no-op — the state is returned untouched (no record created, nothing
modified) and the endpoint still answers ok. -/
theorem heartbeat_unknown_noop (now now2 : Nat) (s : SystemState)
    (uid : String) (h : lookupKV s.uavs uid = none) :
    uav_heartbeat now now2 s uid = (s, "ok") := by
  simp [uav_heartbeat, update_uav_heartbeat, h]

def c10_state : SystemState := { uavs := [], missions := [], pending_queue := [] }

/-- Witness for the C10 theorem at a concrete input. -/
theorem heartbeat_unknown_noop_witness :
    uav_heartbeat 5 6 c10_state "ghost" = (c10_state, "ok") :=
  heartbeat_unknown_noop 5 6 c10_state "ghost" rfl

/-! ## Claim C1 -/

def c1_state : SystemState :=
  { uavs := [("u1", mkUav "u1" UavStatus.ONLINE none)]
    missions := [("m1", mkMission "m1" MissionType.SINGLE_UAV ["u1"]
      MissionState.PENDING 0)]
    pending_queue := ["m1"] }

/-- The S1 run: dispatch m1, update progress to 0.5, complete(true). -/
def c1_after : SystemState :=
  complete_mission 3
    (update_mission_progress 2 (dispatch_mission 1 c1_state "m1").1 "m1" (1/2))
    "m1" true

/-- Claim C1 (code bug, evaluated at the failing input): after the S1
run the mission is SUCCEEDED at progress 1.0 and u1 is IDLE, but u1
still carries current_mission_id = m1 instead of the null the claim
asserts: `complete_mission` releases the UAV by passing `None` to
`set_uav_status`, and that function treats `None` as do-not-change, so
the binding is never cleared (and the UAV can never satisfy
`get_available_uavs` again). -/
theorem complete_mission_keeps_stale_binding :
    (lookupKV c1_after.missions "m1").map MissionInfo.state
      = some MissionState.SUCCEEDED ∧
    (lookupKV c1_after.missions "m1").map MissionInfo.progress = some 1 ∧
    (lookupKV c1_after.uavs "u1").map UavInfo.status = some UavStatus.IDLE ∧
    (lookupKV c1_after.uavs "u1").map UavInfo.current_mission_id
      = some (some "m1") := by
  refine ⟨?_, ?_, ?_, ?_⟩ <;>
    norm_num [c1_after, c1_state, mkUav, mkMission, dispatch_mission,
      dispatch_admission, update_mission_progress, complete_mission,
      set_uav_status, get_available_uavs, lookupKV, setKV, max_def, min_def]

/-! ## Claim C2 -/

theorem pause_mission_true (now : Nat) (s : SystemState) (mid : String)
    (h : (pause_mission now s mid).2 = true) :
    (lookupKV s.missions mid).map MissionInfo.state
        = some MissionState.RUNNING ∧
    (lookupKV (pause_mission now s mid).1.missions mid).map MissionInfo.state
        = some MissionState.PAUSED := by
  rcases ho : lookupKV s.missions mid with _ | m
  · simp [pause_mission, ho] at h
  · by_cases hs : m.state = MissionState.RUNNING
    · refine ⟨by simp [hs], ?_⟩
      simp [pause_mission, ho, hs, lookupKV_setKV_self]
    · simp [pause_mission, ho, hs] at h

theorem pause_mission_false (now : Nat) (s : SystemState) (mid : String)
    (h : (pause_mission now s mid).2 = false) :
    (pause_mission now s mid).1 = s := by
  rcases ho : lookupKV s.missions mid with _ | m
  · simp [pause_mission, ho]
  · by_cases hs : m.state = MissionState.RUNNING
    · simp [pause_mission, ho, hs] at h
    · simp [pause_mission, ho, hs]

theorem resume_mission_true (now : Nat) (s : SystemState) (mid : String)
    (h : (resume_mission now s mid).2 = true) :
    (lookupKV s.missions mid).map MissionInfo.state
        = some MissionState.PAUSED ∧
    (lookupKV (resume_mission now s mid).1.missions mid).map MissionInfo.state
        = some MissionState.RUNNING := by
  rcases ho : lookupKV s.missions mid with _ | m
  · simp [resume_mission, ho] at h
  · by_cases hs : m.state = MissionState.PAUSED
    · refine ⟨by simp [hs], ?_⟩
      simp [resume_mission, ho, hs, lookupKV_setKV_self]
    · simp [resume_mission, ho, hs] at h

theorem resume_mission_false (now : Nat) (s : SystemState) (mid : String)
    (h : (resume_mission now s mid).2 = false) :
    (resume_mission now s mid).1 = s := by
  rcases ho : lookupKV s.missions mid with _ | m
  · simp [resume_mission, ho]
  · by_cases hs : m.state = MissionState.PAUSED
    · simp [resume_mission, ho, hs] at h
    · simp [resume_mission, ho, hs]

theorem dispatch_mission_true (now : Nat) (s : SystemState) (mid : String)
    (h : (dispatch_mission now s mid).2 = true) :
    (lookupKV s.missions mid).map MissionInfo.state
        = some MissionState.PENDING ∧
    (lookupKV (dispatch_mission now s mid).1.missions mid).map
        MissionInfo.state = some MissionState.RUNNING := by
  rcases ho : lookupKV s.missions mid with _ | m
  · simp [dispatch_mission, ho] at h
  · by_cases hs : m.state = MissionState.PENDING
    · rcases ha : dispatch_admission s m with _ | m0
      · simp [dispatch_mission, ho, hs, ha] at h
      · refine ⟨by simp [hs], ?_⟩
        simp [dispatch_mission, ho, hs, ha, foldl_set_status_missions,
          lookupKV_setKV_self]
    · simp [dispatch_mission, ho, hs] at h

theorem dispatch_mission_false (now : Nat) (s : SystemState) (mid : String)
    (h : (dispatch_mission now s mid).2 = false) :
    (dispatch_mission now s mid).1 = s := by
  rcases ho : lookupKV s.missions mid with _ | m
  · simp [dispatch_mission, ho]
  · by_cases hs : m.state = MissionState.PENDING
    · rcases ha : dispatch_admission s m with _ | m0
      · simp [dispatch_mission, ho, hs, ha]
      · simp [dispatch_mission, ho, hs, ha] at h
    · simp [dispatch_mission, ho, hs]

theorem cancel_mission_true (now : Nat) (s : SystemState) (mid : String)
    (h : (cancel_mission now s mid).2 = true) :
    ((lookupKV s.missions mid).map MissionInfo.state
          = some MissionState.PENDING ∨
      (lookupKV s.missions mid).map MissionInfo.state
          = some MissionState.RUNNING ∨
      (lookupKV s.missions mid).map MissionInfo.state
          = some MissionState.PAUSED) ∧
    (lookupKV (cancel_mission now s mid).1.missions mid).map
        MissionInfo.state = some MissionState.CANCELLED := by
  rcases ho : lookupKV s.missions mid with _ | m
  · simp [cancel_mission, ho] at h
  · by_cases ht : m.state = MissionState.SUCCEEDED ∨
        m.state = MissionState.FAILED ∨ m.state = MissionState.CANCELLED
    · simp [cancel_mission, ho, ht] at h
    · constructor
      · cases hst : m.state <;> simp [hst] at ht ⊢
      · simp [cancel_mission, ho, ht, foldl_set_status_missions,
          lookupKV_setKV_self]

theorem cancel_mission_false (now : Nat) (s : SystemState) (mid : String)
    (h : (cancel_mission now s mid).2 = false) :
    (cancel_mission now s mid).1 = s := by
  rcases ho : lookupKV s.missions mid with _ | m
  · simp [cancel_mission, ho]
  · by_cases ht : m.state = MissionState.SUCCEEDED ∨
        m.state = MissionState.FAILED ∨ m.state = MissionState.CANCELLED
    · simp [cancel_mission, ho, ht]
    · simp [cancel_mission, ho, ht] at h

theorem complete_mission_any_state (now : Nat) (s : SystemState)
    (mid : String) (success : Bool) (m : MissionInfo)
    (ho : lookupKV s.missions mid = some m) :
    (lookupKV (complete_mission now s mid success).missions mid).map
        MissionInfo.state
      = some (if success then MissionState.SUCCEEDED else MissionState.FAILED) := by
  simp [complete_mission, ho, foldl_set_status_missions, lookupKV_setKV_self]

theorem delete_mission_any_state (now : Nat) (s : SystemState)
    (mid : String) (m : MissionInfo) (ho : lookupKV s.missions mid = some m) :
    (delete_mission now s mid).2 = DeleteResult.deleted ∧
    lookupKV (delete_mission now s mid).1.missions mid = none := by
  constructor
  · simp [delete_mission, ho]
  · by_cases hr : m.state = MissionState.RUNNING ∨
        m.state = MissionState.PAUSED <;>
      simp [delete_mission, ho, hr, lookupKV_eraseKV_self]

def c2_pending : SystemState :=
  { uavs := []
    missions := [("mp", mkMission "mp" MissionType.SINGLE_UAV []
      MissionState.PENDING 0)]
    pending_queue := ["mp"] }

/-- Claim C2 (counterexample): `complete` on a PENDING mission does not
fail — it performs the transition PENDING → SUCCEEDED, an edge outside
the permitted set of spec section 4.2; and `delete` succeeds on the same
non-terminal mission, although the spec permits delete only in a
terminal state. (No INVALID_STATE error kind exists anywhere in the
source.) -/
theorem complete_performs_forbidden_edge :
    specAllowedEdge MissionState.PENDING MissionState.SUCCEEDED = false ∧
    (lookupKV (complete_mission 1 c2_pending "mp" true).missions "mp").map
        MissionInfo.state = some MissionState.SUCCEEDED ∧
    (delete_mission 1 c2_pending "mp").2 = DeleteResult.deleted ∧
    lookupKV (delete_mission 1 c2_pending "mp").1.missions "mp" = none := by
  exact ⟨rfl, rfl, rfl, rfl⟩

/-- Claim C2 (amended): the guarded operations respect the spec section
4.2 state machine — dispatch succeeds only from PENDING and yields
RUNNING, pause only from RUNNING yielding PAUSED, resume only from
PAUSED yielding RUNNING, cancel only from a non-terminal state yielding
CANCELLED, and each of them leaves the state unchanged whenever it
reports failure — but complete and delete are unguarded: complete
transitions a mission in any state to SUCCEEDED/FAILED, and delete
removes a mission in any state (cancelling RUNNING/PAUSED ones first),
with generic failure reporting rather than an INVALID_STATE error
kind. -/
theorem scheduler_state_machine (now : Nat) (s : SystemState) (mid : String)
    (success : Bool) :
    (specAllowedEdge MissionState.PENDING MissionState.RUNNING = true ∧
      specAllowedEdge MissionState.RUNNING MissionState.PAUSED = true ∧
      specAllowedEdge MissionState.PAUSED MissionState.RUNNING = true) ∧
    ((pause_mission now s mid).2 = true →
      (lookupKV s.missions mid).map MissionInfo.state
          = some MissionState.RUNNING ∧
      (lookupKV (pause_mission now s mid).1.missions mid).map
          MissionInfo.state = some MissionState.PAUSED) ∧
    ((pause_mission now s mid).2 = false → (pause_mission now s mid).1 = s) ∧
    ((resume_mission now s mid).2 = true →
      (lookupKV s.missions mid).map MissionInfo.state
          = some MissionState.PAUSED ∧
      (lookupKV (resume_mission now s mid).1.missions mid).map
          MissionInfo.state = some MissionState.RUNNING) ∧
    ((resume_mission now s mid).2 = false → (resume_mission now s mid).1 = s) ∧
    ((dispatch_mission now s mid).2 = true →
      (lookupKV s.missions mid).map MissionInfo.state
          = some MissionState.PENDING ∧
      (lookupKV (dispatch_mission now s mid).1.missions mid).map
          MissionInfo.state = some MissionState.RUNNING) ∧
    ((dispatch_mission now s mid).2 = false →
      (dispatch_mission now s mid).1 = s) ∧
    ((cancel_mission now s mid).2 = true →
      ((lookupKV s.missions mid).map MissionInfo.state
            = some MissionState.PENDING ∨
        (lookupKV s.missions mid).map MissionInfo.state
            = some MissionState.RUNNING ∨
        (lookupKV s.missions mid).map MissionInfo.state
            = some MissionState.PAUSED) ∧
      (lookupKV (cancel_mission now s mid).1.missions mid).map
          MissionInfo.state = some MissionState.CANCELLED) ∧
    ((cancel_mission now s mid).2 = false → (cancel_mission now s mid).1 = s) ∧
    (∀ m, lookupKV s.missions mid = some m →
      (lookupKV (complete_mission now s mid success).missions mid).map
          MissionInfo.state
        = some (if success then MissionState.SUCCEEDED
                else MissionState.FAILED)) ∧
    (∀ m, lookupKV s.missions mid = some m →
      (delete_mission now s mid).2 = DeleteResult.deleted ∧
      lookupKV (delete_mission now s mid).1.missions mid = none) :=
  ⟨⟨rfl, rfl, rfl⟩,
    pause_mission_true now s mid,
    pause_mission_false now s mid,
    resume_mission_true now s mid,
    resume_mission_false now s mid,
    dispatch_mission_true now s mid,
    dispatch_mission_false now s mid,
    cancel_mission_true now s mid,
    cancel_mission_false now s mid,
    fun m hm => complete_mission_any_state now s mid success m hm,
    fun m hm => delete_mission_any_state now s mid m hm⟩

def c2_running : SystemState :=
  { uavs := []
    missions := [("mw", mkMission "mw" MissionType.SINGLE_UAV []
      MissionState.RUNNING 0)]
    pending_queue := [] }

/-- Witness for the amended C2 theorem: the pause clause at a concrete
RUNNING mission. -/
theorem scheduler_state_machine_witness :
    (lookupKV c2_running.missions "mw").map MissionInfo.state
        = some MissionState.RUNNING ∧
    (lookupKV (pause_mission 1 c2_running "mw").1.missions "mw").map
        MissionInfo.state = some MissionState.PAUSED :=
  (scheduler_state_machine 1 c2_running "mw" true).2.1 rfl

/-! ## Claim C7 -/

def c7_origin : Position := { lat := 0, lon := 0, alt := 0 }

def c7_wp (t : ℚ) : Waypoint :=
  { position := c7_origin, timestamp := t, speed := 10 }

def c7_path1 : Path := { waypoints := [c7_wp 0], uav_id := "pa" }

def c7_path2 : Path := { waypoints := [c7_wp 10], uav_id := "pb" }

/-- Claim C7 (counterexample): the path optimizer detects a conflict for
two waypoints 30 m apart (below the 50 m separation) whose timestamps
differ by exactly 10 s, and the recorded severity is
1 − min(10/10, 1) = 0 — not greater than 0 as the claim asserts. (The
coordinator path, for its part, emits COLLISION_RISK messages that carry
no severity field at all.) -/
theorem path_conflict_severity_zero :
    (detect_conflicts (fun _ _ => 30) 50 c7_path1 [c7_path1, c7_path2] 0).map
      Conflict.severity = [0] := by
  norm_num [detect_conflicts, detect_conflicts_from, c7_path1, c7_path2,
    c7_wp, conflict_severity, abs, max_def, min_def, List.filterMap_cons,
    List.filterMap_nil, List.map_cons, List.map_nil]

/-- Claim C7 (amended): on a state update for a RUNNING UAV, every other
tracked RUNNING UAV of the same cluster mission closer than the minimum
separation yields a COLLISION_RISK coordination message referencing both
UAV ids (with the distance and the separation threshold; the message
data carries no severity); the severity formula 1 − min(|Δt|/10, 1)
belongs to the path optimizer, which attaches it to the PATH conflicts
it detects between waypoint pairs closer than the separation — a value
that is zero whenever the timestamps differ by 10 s or more. -/
theorem collision_risk_emission (dist : Position → Position → ℚ)
    (minSep : ℚ) (now : Nat) (states : List (String × UavMissionState))
    (uid other : String) (cur ost : UavMissionState)
    (hcur : lookupKV states uid = some cur) (hrun : cur.status = "RUNNING")
    (hmem : (other, ost) ∈ states) (hne : other ≠ uid)
    (horun : ost.status = "RUNNING")
    (hcl : ost.cluster_mission_id = cur.cluster_mission_id)
    (hd : dist cur.current_position ost.current_position < minSep) :
    (∃ msg ∈ check_conflicts dist minSep now states uid,
        msg.event_type = CoordinationEvent.COLLISION_RISK ∧
        msg.uav_id = uid ∧
        msg.data = some
          { ctype := "COLLISION_RISK", uav_id := uid, other_uav_id := other,
            distance := dist cur.current_position ost.current_position,
            min_separation := minSep }) ∧
    (∀ (u1 u2 : String) (w1 w2 : Waypoint),
        dist w1.position w2.position < minSep →
        detect_conflicts dist minSep { waypoints := [w1], uav_id := u1 }
            [{ waypoints := [w1], uav_id := u1 },
             { waypoints := [w2], uav_id := u2 }] 0
          = [{ uav_id_1 := u1, uav_id_2 := u2, conflict_type := "PATH",
               conflict_point := w1.position, conflict_time := w1.timestamp,
               severity := 1 - min (|w1.timestamp - w2.timestamp| / 10) 1 }]) := by
  constructor
  · have hrec :
        (⟨"COLLISION_RISK", uid, other,
          dist cur.current_position ost.current_position, minSep⟩ :
            ConflictRecord) ∈
          states.filterMap (fun p =>
            if p.1 = uid then none
            else if p.2.status ≠ "RUNNING" then none
            else if p.2.cluster_mission_id ≠ cur.cluster_mission_id then none
            else
              let d := dist cur.current_position p.2.current_position
              if d < minSep then
                some (⟨"COLLISION_RISK", uid, p.1, d, minSep⟩ : ConflictRecord)
              else none) := by
      apply List.mem_filterMap.mpr
      refine ⟨(other, ost), hmem, ?_⟩
      simp [hne, horun, hcl, hd]
    simp only [check_conflicts, hcur, hrun]
    simp only [ne_eq, not_true_eq_false, if_false]
    exact ⟨_, List.mem_map_of_mem _ hrec, rfl, rfl, rfl⟩
  · intro u1 u2 w1 w2 hlt
    simp [detect_conflicts, detect_conflicts_from, hlt, conflict_severity]

def c7_ums (uid : String) : UavMissionState :=
  { uav_id := uid, mission_id := "sm", cluster_mission_id := "cm",
    assigned_area := [], current_position := { lat := 0, lon := 0, alt := 0 },
    current_waypoint_index := 0, progress := 0, status := "RUNNING",
    battery_percent := 100, last_update := none }

def c7_states : List (String × UavMissionState) :=
  [("ua", c7_ums "ua"), ("ub", c7_ums "ub")]

/-- Witness for the amended C7 theorem: the emission clause at two
concrete RUNNING UAVs of the same cluster mission 30 m apart. -/
theorem collision_risk_emission_witness :
    ∃ msg ∈ check_conflicts (fun _ _ => (30 : ℚ)) 50 0 c7_states "ua",
      msg.event_type = CoordinationEvent.COLLISION_RISK ∧
      msg.uav_id = "ua" ∧
      msg.data = some
        { ctype := "COLLISION_RISK", uav_id := "ua", other_uav_id := "ub",
          distance := 30, min_separation := 50 } :=
  (collision_risk_emission (fun _ _ => 30) 50 0 c7_states "ua" "ub"
    (c7_ums "ua") (c7_ums "ub") rfl rfl (by simp [c7_states])
    (by decide) rfl rfl (by norm_num)).1

end FalconMind
